import Mathlib

/-!
Shallow embedding of the vista-pegasus-wrapper workflow-construction core
(`pegasus_wrapper/locator.py`, `pegasus_wrapper/resource_request.py`,
`pegasus_wrapper/artifact.py`, `pegasus_wrapper/workflow.py`) together with
theorems settling the frozen claims about it.

Python conventions are made explicit: optional attributes become `Option`,
raised exceptions become an `Except PyErr` result, Python's truthiness-based
`x or y` becomes `pyOr*` helpers (where `None`, `0` and `""` are falsy), and
Python `dict`s become association lists with insert-or-update semantics.
-/

set_option maxHeartbeats 1000000

namespace PegasusWrapper

/-- The failure modes of the embedded code.  The spec gives symbolic names
(`InvalidLocatorError`, `WalltimeExceededError`, ...) to the anonymous
`ValueError`/`RuntimeError` raise sites of the source; each constructor below
is tied to one concrete raise site (or to a Python-runtime failure such as
`TypeError`/`AttributeError` for operations on values of the wrong shape). -/
inductive PyErr where
  /-- `locator.py` line 36: a locator segment contains `=` (spec: `InvalidLocatorError`). -/
  | invalidLocator : PyErr
  /-- `locator.py` line 48: extending a locator with an unsupported type. -/
  | cannotExtendLocator : PyErr
  /-- `resource_request.py` line 182: no partition resolved (spec: `MissingPartitionError`). -/
  | missingPartition : PyErr
  /-- `resource_request.py` line 185: job time exceeds the partition walltime
  (spec: `WalltimeExceededError`). -/
  | walltimeExceeded : PyErr
  /-- `resource_request.py` line 209: exclude list and single-node pin conflict
  (spec: `InconsistentNodeConstraintError`). -/
  | inconsistentNodeConstraint : PyErr
  /-- Named by the spec (`IncompatibleResourceRequestError`); the source has no
  corresponding raise site. -/
  | incompatibleResourceRequest : PyErr
  /-- `workflow.py` lines 486 and 506: duplicate container file name
  (spec: `DuplicateContainerFileNameError`). -/
  | duplicateContainerFileName : PyErr
  /-- `artifact.py` line 70: dependency specification could not be parsed
  (spec: `DependencySpecificationError`). -/
  | dependencySpecification : PyErr
  /-- An attrs validator rejected a field value (Python `ValueError`). -/
  | validationError : PyErr
  /-- A Python `TypeError`, e.g. iterating a non-iterable value. -/
  | typeError : PyErr
  /-- A Python `AttributeError`, e.g. reading `.name` from `None`. -/
  | attributeError : PyErr
deriving DecidableEq, Repr

/-! ### Generic helpers for Python semantics -/

/-- Python `a or b` for optional object-valued attributes (class instances are
always truthy, `None` is falsy). -/
def pyOrOpt {α : Type} (a b : Option α) : Option α :=
  match a with
  | some x => some x
  | none => b

/-- Python `a or b` for optional `str` attributes: `None` and `""` are falsy. -/
def pyOrStr (a b : Option String) : Option String :=
  match a with
  | some s => if s = "" then b else some s
  | none => b

/-- Python `a or b` for optional `int` attributes: `None` and `0` are falsy. -/
def pyOrInt (a b : Option Int) : Option Int :=
  match a with
  | some n => if n = 0 then b else some n
  | none => b

/-- First-match association-list lookup (Python `dict[key]` access pattern). -/
def alookup {κ α : Type} [DecidableEq κ] : List (κ × α) → κ → Option α
  | [], _ => none
  | (k, v) :: rest, key => if k = key then some v else alookup rest key

/-- Python `dict` assignment `d[k] = v`: overwrite in place if the key exists
(keys are unique in a dict, so replacing the first occurrence suffices),
append otherwise. -/
def upsert {κ α : Type} [DecidableEq κ] : List (κ × α) → κ → α → List (κ × α)
  | [], k, v => [(k, v)]
  | (k', v') :: rest, k, v =>
      if k' = k then (k, v) :: rest else (k', v') :: upsert rest k v

/-- Deduplication keeping first occurrences, as `immutableset` does. -/
def insertionDedup {α : Type} [DecidableEq α] (l : List α) : List α :=
  l.foldl (fun acc x => if x ∈ acc then acc else acc ++ [x]) []

/-- Python `c in s` for a single character (working on the character list so
that it evaluates by kernel reduction). -/
def strContainsChar (s : String) (c : Char) : Bool :=
  s.toList.contains c

/-- Basename of a path string (Python `Path.name`): the characters after the
last `/`. -/
def pathName (p : String) : String :=
  String.mk (p.toList.foldl (fun acc c => if c = '/' then [] else acc ++ [c]) [])

/-- `str.replace("/", "_")` at the character level. -/
def replaceSlashWithUnderscore (s : String) : String :=
  String.mk (s.toList.map (fun c => if c = '/' then '_' else c))

deriving instance DecidableEq for Except

/-! ### `resource_request.py` -/

/-- `Partition` (`resource_request.py` lines 22-46). -/
structure Partition where
  name : String
  maxWalltime : Int
deriving DecidableEq, Repr

/-- `Partition.from_str` (`resource_request.py` lines 37-46); the project
default walltime `_PROJECT_PARTITION_JOB_TIME_IN_MINUTES` is 1440. -/
def Partition.fromStr (name : String) : Partition :=
  { name := name
    maxWalltime :=
      if name = "ephemeral" then 720
      else if name = "scavenge" then 120
      else 1440 }

/-- The attribute record of `SlurmResourceRequest` (`resource_request.py`
lines 93-121).  `memory` models the opaque `MemoryAmount` by its string form. -/
structure SlurmFields where
  partition : Option Partition
  memory : Option String
  numCpus : Option Int
  numGpus : Option Int
  jobTime : Option Int
  excludeList : Option String
  runOnSingleNode : Option String
deriving DecidableEq, Repr

/-- The `in_(Range.at_least(1))` validator on `num_cpus`: rejects a set value
below 1. -/
def cpuInvalid (numCpus : Option Int) : Bool :=
  match numCpus with
  | some c => decide (c < 1)
  | none => false

/-- The `in_(Range.at_least(0))` validator on `num_gpus`. -/
def gpuInvalid (numGpus : Option Int) : Bool :=
  match numGpus with
  | some g => decide (g < 0)
  | none => false

/-- The `run_on_single_node` validator (`resource_request.py` lines 141-144):
a truthy value whose comma-split has more than one piece is rejected. -/
def nodePinInvalid (runOnSingleNode : Option String) : Bool :=
  match runOnSingleNode with
  | some s => !(s == "") && strContainsChar s ','
  | none => false

/-- Python falsiness of an optional int: `None` and `0` are falsy. -/
def intFalsy (i : Option Int) : Bool :=
  match i with
  | none => true
  | some n => decide (n = 0)

/-- The `partition` converter `lambda x: Partition.from_str(x) if x else None`
(`resource_request.py` line 100). -/
def partitionOfParam (partition : Option String) : Option Partition :=
  match partition with
  | none => none
  | some s => if s = "" then none else some (Partition.fromStr s)

/-- Constructing a `SlurmResourceRequest`: the `partition` converter, the
attrs validators (`num_cpus >= 1`, `num_gpus >= 0`, `run_on_single_node` has
no comma), and `__attrs_post_init__` (lines 123-139), which replaces a falsy
`job_time_in_minutes` by the partition's max walltime (1440 if no partition
is set). -/
def mkSlurmResourceRequest (partition : Option String) (memory : Option String)
    (numCpus numGpus jobTime : Option Int)
    (excludeList runOnSingleNode : Option String) : Except PyErr SlurmFields :=
  if cpuInvalid numCpus then .error .validationError
  else if gpuInvalid numGpus then .error .validationError
  else if nodePinInvalid runOnSingleNode then .error .validationError
  else
    let part : Option Partition := partitionOfParam partition
    let jt : Option Int :=
      if intFalsy jobTime then
        some (match part with
              | none => 1440
              | some p => p.maxWalltime)
      else jobTime
    .ok { partition := part, memory := memory, numCpus := numCpus,
          numGpus := numGpus, jobTime := jt, excludeList := excludeList,
          runOnSingleNode := runOnSingleNode }

/-- A `ResourceRequest` value passed to `unify`: either a
`SlurmResourceRequest`, or (hypothetically) some other structurally distinct
variant of the `ResourceRequest` protocol.  The `generic` variant carries the
duck-typed attributes that `unify` reads off its argument. -/
inductive ResourceRequest where
  | slurm (f : SlurmFields) : ResourceRequest
  | generic (f : SlurmFields) : ResourceRequest
deriving DecidableEq, Repr

/-- The field record of a `ResourceRequest`, whichever variant it is. -/
def ResourceRequest.fields : ResourceRequest → SlurmFields
  | .slurm f => f
  | .generic f => f

/-- `SlurmResourceRequest.unify` (`resource_request.py` lines 160-174).
The result is built by calling the `SlurmResourceRequest` constructor again,
so the converter, validators and `__attrs_post_init__` re-run on the merged
fields.  Reading `.name` from a `None` partition is an `AttributeError`. -/
def SlurmFields.unify (self : SlurmFields) (other : ResourceRequest) :
    Except PyErr SlurmFields :=
  let partition : Option Partition :=
    match other with
    | .slurm o => pyOrOpt o.partition self.partition
    | .generic _ => self.partition
  match partition with
  | none => .error .attributeError
  | some p =>
      let o := other.fields
      mkSlurmResourceRequest (some p.name)
        (pyOrOpt o.memory self.memory)
        (pyOrInt o.numCpus self.numCpus)
        (match o.numGpus with
         | some g => some g
         | none => self.numGpus)
        (pyOrInt o.jobTime self.jobTime)
        (pyOrStr o.excludeList self.excludeList)
        (pyOrStr o.runOnSingleNode self.runOnSingleNode)

/-- `SlurmResourceRequest.convert_time_to_slurm_format` (`resource_request.py`
lines 176-178): `divmod` on a Python int (floor division; for the positive
divisor 60 this is Euclidean division), then
`f"{hours}:{str(mins)+'0' if mins < 10 else mins}:00"`. -/
def convertTimeToSlurmFormat (jobTimeInMinutes : Int) : String :=
  let hours := jobTimeInMinutes.ediv 60
  let mins := jobTimeInMinutes.emod 60
  toString hours ++ ":"
    ++ (if mins < 10 then toString mins ++ "0" else toString mins)
    ++ ":00"

/-- `SLURM_RESOURCE_STRING` (`resource_request.py` lines 230-232) instantiated
with the given values. -/
def slurmResourceString (qosOrAccount partition : String) (numCpus numGpus : Int)
    (jobName memStr time : String) : String :=
  "--" ++ qosOrAccount ++ " --partition " ++ partition ++ " --ntasks 1\n"
    ++ " --cpus-per-task " ++ toString numCpus ++ " --gpus-per-task "
    ++ toString numGpus ++ " --job-name " ++ jobName ++ " --mem " ++ memStr
    ++ "\n --time " ++ time

/-- `SlurmResourceRequest.apply_to_job` (`resource_request.py` lines 180-227),
returning the `glite.arguments` profile string attached to the job.
`to_slurm_memory_string` is an external collaborator applied to an opaque
memory amount; it is kept as the amount's string form.  Comparing an `int`
against a `None` job time would be a Python `TypeError`. -/
def applyToJob (self : SlurmFields) (jobName : String) : Except PyErr String :=
  match self.partition with
  | none => .error .missingPartition
  | some p =>
    match self.jobTime with
    | none => .error .typeError
    | some t =>
      if p.maxWalltime < t then .error .walltimeExceeded
      else
        let qosOrAccount :=
          if p.name = "scavenge" ∨ p.name = "ephemeral" then
            "qos " ++ p.name
          else "account " ++ p.name
        let content := slurmResourceString qosOrAccount p.name
          (match self.numCpus with
           | some c => if c = 0 then 1 else c
           | none => 1)
          (match self.numGpus with
           | some g => g
           | none => 0)
          jobName
          (match self.memory with
           | some m => m
           | none => "2G")
          (convertTimeToSlurmFormat t)
        if (match self.excludeList, self.runOnSingleNode with
            | some ex, some node =>
                !(ex == "") && !(node == "") && decide (node.toList <:+: ex.toList)
            | _, _ => false) then
          .error .inconsistentNodeConstraint
        else
          let content :=
            match self.excludeList with
            | some ex => if ex = "" then content else content ++ " --exclude=" ++ ex
            | none => content
          let content :=
            match self.runOnSingleNode with
            | some node =>
                if node = "" then content else content ++ " --nodelist=" ++ node
            | none => content
          .ok content

/-! ### `locator.py` -/

/-- A validated `Locator` is its tuple of parts (`locator.py` line 29). -/
abbrev Locator := List String

/-- The `Locator` constructor with its `_validate_parts` validator
(`locator.py` lines 31-36): rejects any part containing `=`. -/
def mkLocator (parts : List String) : Except PyErr Locator :=
  if parts.any (fun part => strContainsChar part '=') then .error .invalidLocator
  else .ok parts

/-- The right operand of `Locator.__truediv__`: a `Locator`, a `str`, or a
value of any other (unsupported) type such as an integer. -/
inductive LocatorArg where
  | loc (l : Locator) : LocatorArg
  | str (s : String) : LocatorArg
  | unsupported : LocatorArg

/-- `Locator.__truediv__` (`locator.py` lines 38-48): chaining parts or
appending a string re-runs the constructor (and hence validation); any other
operand type raises. -/
def locatorDiv (self : Locator) : LocatorArg → Except PyErr Locator
  | .loc other => mkLocator (self ++ other)
  | .str s => mkLocator (self ++ [s])
  | .unsupported => .error .cannotExtendLocator

/-- `Locator.__repr__`: parts joined with `/`. -/
def locatorStr (self : Locator) : String :=
  String.intercalate "/" self

/-! ### `artifact.py` -/

/-- A `DependencyNode`: an opaque handle to one scheduled job.  In
`workflow.py` dependency nodes are created with
`DependencyNode.from_job(job, output_files=[...])`; jobs are identified here
by allocation number and output files by the same. -/
structure DependencyNode where
  job : Nat
  outputFiles : List Nat
deriving DecidableEq, Repr

/-- A possible Python value of the `depends_on` argument: a single
`DependencyNode`, an `Artifact` (read through its `depends_on` set), a
collection of such values, or a value of any other, non-iterable type
(such as an integer). -/
inductive Dep where
  | node (d : DependencyNode) : Dep
  | artifact (dependsOn : List DependencyNode) : Dep
  | coll (xs : List Dep) : Dep
  | unsupported : Dep

mutual

/-- The recursive part of `_canonicalize_depends_on` (`artifact.py` lines
60-70), for `max_depth is not None`: a `DependencyNode` gives a singleton, an
`Artifact` gives its `depends_on` set, otherwise while `max_depth > 0` the
input is iterated (iterating a non-iterable value is a Python `TypeError`),
and at depth 0 the parse error is raised.  The nested lists the Python
version returns are flattened later by `collapse`; errors in the eager list
comprehension propagate first, so flattening as we recurse is equivalent. -/
def canonRec : Dep → Nat → Except PyErr (List DependencyNode)
  | .node d, _ => .ok [d]
  | .artifact ds, _ => .ok ds
  | .coll xs, Nat.succ k => canonList xs k
  | .unsupported, Nat.succ _ => .error .typeError
  | .coll _, 0 => .error .dependencySpecification
  | .unsupported, 0 => .error .dependencySpecification

/-- Canonicalize each element of a collection at the given depth,
concatenating the results. -/
def canonList : List Dep → Nat → Except PyErr (List DependencyNode)
  | [], _ => .ok []
  | x :: xs, k =>
    match canonRec x k with
    | .error e => .error e
    | .ok ds =>
      match canonList xs k with
      | .error e => .error e
      | .ok rest => .ok (ds ++ rest)

end

/-- `_canonicalize_depends_on(dep_param)` with `max_depth=None`
(`artifact.py` line 72): recurse at `max_depth=2`, collapse, and deduplicate
keeping first occurrences (`immutableset`). -/
def canonicalizeDependsOn (d : Dep) : Except PyErr (List DependencyNode) :=
  (canonRec d 2).map insertionDedup

/-! ### `_run_python_in_container` file-name collision check
(`workflow.py` lines 464-521) -/

/-- The literal reserved parameter-file name. -/
def paramsFileName : String := "____params.params"

/-- `set(params_file_name)` (`workflow.py` line 473): Python builds the set of
the *characters* of the string, i.e. a set of one-character strings. -/
def pySetOfChars (s : String) : List String :=
  insertionDedup (s.toList.map (fun c => String.mk [c]))

/-- The duplicate-file-name detection of `_run_python_in_container`
(`workflow.py` lines 469-521): starting from `set(params_file_name)`, walk
the input files and then the output files; raise if a file's basename is
already in the set, otherwise add it.  Returns the final name set. -/
def containerFileNameCheck (inputFiles outputFiles : List String) :
    Except PyErr (List String) :=
  let step := fun (acc : Except PyErr (List String)) (path : String) =>
    match acc with
    | .error e => .error e
    | .ok names =>
      if pathName path ∈ names then .error .duplicateContainerFileName
      else .ok (names ++ [pathName path])
  (inputFiles ++ outputFiles).foldl step (.ok (pySetOfChars paramsFileName))

/-! ### `workflow.py`: the `WorkflowBuilder` state machine

Files, paths and directories are modelled as strings; scheduled Pegasus
`Job` objects and `File` objects are identified by allocation numbers.  The
filesystem (read by `checkpoint_path.exists()`) is an environment function.
The containerized branch of `_run_python_job` is not part of this state
machine; its collision check is `containerFileNameCheck` above. -/

/-- The immutable configuration of a `WorkflowBuilder` (`workflow.py`
lines 79-124) plus the filesystem observed through `Path.exists`. -/
structure Env where
  workflowDirectory : String
  defaultSite : String
  namespaceName : String
  experimentName : String
  defaultResourceRequest : SlurmFields
  fsExists : String → Bool

/-- The mutable state a `WorkflowBuilder` accumulates while scheduling:
the job graph, the signature cache, the file/replica/transformation catalogs,
per-job profile bookkeeping, the category limits, and the emitted properties.
`nextJobId`/`nextFileId` allocate identities for `Job()`/`File()` objects. -/
structure BuilderState where
  nextJobId : Nat
  nextFileId : Nat
  /-- Jobs added to `_job_graph` via `add_jobs`. -/
  jobGraphJobs : List Nat
  /-- Dependency edges `(child, parent)` added via `add_dependency`. -/
  jobGraphDeps : List (Nat × Nat)
  /-- `(job, file)` pairs recorded by `job.add_inputs`. -/
  jobInputs : List (Nat × Nat)
  /-- `(job, file)` pairs recorded by `job.add_outputs`. -/
  jobOutputs : List (Nat × Nat)
  /-- `_signature_to_job`. -/
  signatureToJob : List ((String × String) × DependencyNode)
  /-- `_lfn_to_file`. -/
  lfnToFile : List (String × Nat)
  /-- `_replica_catalog` entries `(site, lfn, pfn)`. -/
  replicaCatalog : List (String × String × String)
  /-- Script paths written through the conda script generator. -/
  scriptsWritten : List String
  /-- `_transformation_catalog` entries, by transformation name. -/
  transformations : List String
  /-- `(job, glite arguments)` profile strings from `apply_to_job`. -/
  jobGlite : List (Nat × String)
  /-- `(job, category, retry)` from `add_dagman_profile`. -/
  jobDagman : List (Nat × Option String × Nat)
  /-- `(job, namespace, key, value)` from user-supplied Pegasus profiles. -/
  jobProfiles : List (Nat × String × String × String)
  /-- `_category_to_max_jobs`. -/
  categoryToMaxJobs : List (String × Nat)
  /-- `_properties`. -/
  properties : List (String × String)
deriving DecidableEq, Repr

/-- `WorkflowBuilder._job_name_for` (`workflow.py` lines 177-183). -/
def jobNameFor (env : Env) (locator : Locator) : String :=
  let locatorAsName := replaceSlashWithUnderscore (locatorStr locator)
  if env.experimentName = "" then locatorAsName
  else env.experimentName ++ "_" ++ locatorAsName

/-- `WorkflowBuilder.directory_for` (`workflow.py` lines 168-175): the
working directory for a locator (the `mkdir` side effect is not observable
in this model). -/
def directoryFor (env : Env) (locator : Locator) : String :=
  env.workflowDirectory ++ "/" ++ locatorStr locator

/-- `WorkflowBuilder.create_file` (`workflow.py` lines 185-208): return the
cached `File` for a logical file name, or create one, adding a replica
catalog entry only when `add_to_catalog` holds. -/
def createFile (env : Env) (st : BuilderState) (logicalFileName : String)
    (physicalFilePath : String) (site : Option String) (addToCatalog : Bool) :
    Nat × BuilderState :=
  match alookup st.lfnToFile logicalFileName with
  | some f => (f, st)
  | none =>
    let f := st.nextFileId
    let st := { st with
      nextFileId := f + 1
      lfnToFile := st.lfnToFile ++ [(logicalFileName, f)]
      replicaCatalog :=
        if addToCatalog then
          st.replicaCatalog
            ++ [(site.getD env.defaultSite, logicalFileName, physicalFilePath)]
        else st.replicaCatalog }
    (f, st)

/-- A user-supplied `PegasusProfile` (namespace, key, value). -/
structure PegasusProfile where
  namespaceName : String
  key : String
  value : String
deriving DecidableEq, Repr

/-- One iteration of the `depends_on` loop in `_update_job_settings`
(`workflow.py` lines 298-302): add an edge from the parent's job and pull the
parent's declared output files in as inputs of the new job.  (The guard
`if parent_dependency.job:` always holds: dependency nodes are built from a
validated `Job`.) -/
def depsFoldStep (jobId : Nat) (s : BuilderState) (parent : DependencyNode) :
    BuilderState :=
  { s with
    jobGraphDeps := s.jobGraphDeps ++ [(jobId, parent.job)]
    jobInputs := s.jobInputs ++ parent.outputFiles.map (fun f => (jobId, f)) }

/-- `WorkflowBuilder._update_job_settings` (`workflow.py` lines 268-314):
add the job to the graph, apply the resource request, record the DAGMan
category/retry profile and user profiles, wire dependency edges and parent
output files, and register the checkpoint file — in the replica catalog only
when it already exists on disk, and always as a job output. -/
def updateJobSettings (env : Env) (st : BuilderState) (category : Option String)
    (checkpointPath : String) (ckptName : String)
    (dependsOn : List DependencyNode) (jobId : Nat) (jobName : Locator)
    (jobProfiles : List PegasusProfile) (resourceRequest : SlurmFields)
    (timesToRetryJob : Nat) : Except PyErr (DependencyNode × BuilderState) :=
  let st := { st with jobGraphJobs := st.jobGraphJobs ++ [jobId] }
  match applyToJob resourceRequest (jobNameFor env jobName) with
  | .error e => .error e
  | .ok glite =>
    let st := { st with
      jobGlite := st.jobGlite ++ [(jobId, glite)]
      jobDagman := st.jobDagman ++ [(jobId, category, timesToRetryJob)]
      jobProfiles := st.jobProfiles
        ++ jobProfiles.map (fun p => (jobId, p.namespaceName, p.key, p.value)) }
    let st := dependsOn.foldl (depsFoldStep jobId) st
    let res := createFile env st ckptName checkpointPath none
      (env.fsExists checkpointPath)
    let ckptFile := res.1
    let st := { res.2 with jobOutputs := res.2.jobOutputs ++ [(jobId, ckptFile)] }
    .ok ({ job := jobId, outputFiles := [ckptFile] }, st)

/-- `WorkflowBuilder.set_resource_request` (`workflow.py` lines 997-1003). -/
def setResourceRequest (env : Env) (resourceRequest : Option SlurmFields) :
    Except PyErr SlurmFields :=
  match resourceRequest with
  | some r => env.defaultResourceRequest.unify (.slurm r)
  | none => .ok env.defaultResourceRequest

/-- `WorkflowBuilder._run_python_job` (`workflow.py` lines 316-437), for the
non-containerized case, with the program identity already reduced to a string
(`computed_module_or_path`) and the arguments already in their canonical
string form (the literal argument string, or the deterministic YAML
serialization of the parameters — the `signature_args` computed on lines
352-359).  Steps: canonicalize `depends_on`; on a signature-cache hit return
the cached node untouched; otherwise write the run script, register the
transformation, resolve the resource request against the default, create the
job and apply the shared settings, and record the signature. -/
def runPythonJob (env : Env) (st : BuilderState) (jobName : Locator)
    (computedModuleOrPath : String) (argsPayload : String) (dependsOnParam : Dep)
    (resourceRequest : Option SlurmFields) (category : Option String)
    (useJobProfiles : List PegasusProfile) (timesToRetryJob : Nat) :
    Except PyErr (DependencyNode × BuilderState) :=
  let jobDir := directoryFor env jobName
  let ckptName := locatorStr jobName ++ "/___ckpt"
  let checkpointPath := jobDir ++ "/___ckpt"
  match canonicalizeDependsOn dependsOnParam with
  | .error e => .error e
  | .ok dependsOn =>
    let signature := (computedModuleOrPath, argsPayload)
    match alookup st.signatureToJob signature with
    | some cached => .ok (cached, st)
    | none =>
      let scriptPath := jobDir ++ "/___run.sh"
      let st := { st with scriptsWritten := st.scriptsWritten ++ [scriptPath] }
      let st := { st with
        transformations := st.transformations ++ [jobNameFor env jobName] }
      match setResourceRequest env resourceRequest with
      | .error e => .error e
      | .ok rrResolved =>
        let jobId := st.nextJobId
        let st := { st with nextJobId := jobId + 1 }
        match updateJobSettings env st category checkpointPath ckptName
            dependsOn jobId jobName useJobProfiles rrResolved timesToRetryJob with
        | .error e => .error e
        | .ok (node, st) =>
          let st := { st with
            signatureToJob := st.signatureToJob ++ [(signature, node)] }
          .ok (node, st)

/-- `WorkflowBuilder.limit_jobs_for_category` (`workflow.py` lines 1005-1009). -/
def limitJobsForCategory (st : BuilderState) (category : String) (maxJobs : Nat) :
    BuilderState :=
  { st with categoryToMaxJobs := upsert st.categoryToMaxJobs category maxJobs }

/-- `WorkflowBuilder._conf_limits` (`workflow.py` lines 1011-1016): for each
recorded category limit, set `properties["dagman.<category>.maxjobs"]` to the
limit. -/
def confLimits (st : BuilderState) : BuilderState :=
  { st with
    properties := st.categoryToMaxJobs.foldl
      (fun props p => upsert props ("dagman." ++ p.1 ++ ".maxjobs") (toString p.2))
      st.properties }

/-! ## Theorems for the claims -/

/-- C10: for every non-negative integer m, the wall-time encoding renders m
minutes as `{m div 60}:{r}:00` where the remainder `r = m mod 60` is written
as-is when `r >= 10` but with a zero appended after the digit when `r < 10`;
so 65 minutes renders as "1:50:00" (not "1:05:00") and 120 minutes renders as
"2:00:00". -/
theorem convert_time_format :
    (∀ t : Int, 0 ≤ t →
      convertTimeToSlurmFormat t =
        toString (t.ediv 60) ++ ":"
          ++ (if t.emod 60 < 10 then toString (t.emod 60) ++ "0"
              else toString (t.emod 60)) ++ ":00")
    ∧ convertTimeToSlurmFormat 65 = "1:50:00"
    ∧ convertTimeToSlurmFormat 65 ≠ "1:05:00"
    ∧ convertTimeToSlurmFormat 120 = "2:00:00" :=
  ⟨fun _ _ => rfl, by decide, by decide, by decide⟩

/-- Witness for C10 at the concrete input 65 minutes. -/
theorem convert_time_format_witness :
    (0 : Int) ≤ 65
    ∧ convertTimeToSlurmFormat 65 =
        toString ((65 : Int).ediv 60) ++ ":"
          ++ (if (65 : Int).emod 60 < 10 then toString ((65 : Int).emod 60) ++ "0"
              else toString ((65 : Int).emod 60)) ++ ":00" :=
  ⟨by decide, convert_time_format.1 65 (by decide)⟩

/-- C4 (code bug): the duplicate-basename detection of
`_run_python_in_container` initializes its seen-name set with
`set(params_file_name)`, the set of the *characters* of
`"____params.params"`, not the singleton of that name.  Hence an input file
whose basename equals the reserved parameter-file name raises no error, while
a single input file whose basename is the one-character string "p" is
spuriously rejected.  A genuine basename duplicate is still rejected. -/
theorem container_filename_check_bug :
    containerFileNameCheck ["/tmp/____params.params"] []
        = .ok ["_", "p", "a", "r", "m", "s", ".", "____params.params"]
    ∧ containerFileNameCheck ["/tmp/p"] [] = .error .duplicateContainerFileName
    ∧ containerFileNameCheck ["/a/x.txt", "/b/x.txt"] []
        = .error .duplicateContainerFileName := by
  refine ⟨by decide, by decide, by decide⟩

/-- C8: constructing a Locator fails when any segment contains `=`; composing
`Locator(["jobs","x"])` with the string "y" by the path-join operator yields
`Locator(["jobs","x","y"])`; composing with an unsupported type fails. -/
theorem locator_validation :
    (∀ (parts : List String) (part : String), part ∈ parts →
        strContainsChar part '=' = true → mkLocator parts = .error .invalidLocator)
    ∧ locatorDiv ["jobs", "x"] (.str "y") = .ok ["jobs", "x", "y"]
    ∧ locatorDiv ["jobs", "x"] .unsupported = .error .cannotExtendLocator := by
  refine ⟨?_, by decide, by decide⟩
  intro parts part hmem hc
  have hany : parts.any (fun part => strContainsChar part '=') = true :=
    List.any_eq_true.mpr ⟨part, hmem, hc⟩
  simp [mkLocator, hany]

/-- Witness for C8 at the concrete segment list `["a=b"]`. -/
theorem locator_validation_witness :
    ("a=b" ∈ ["a=b"] ∧ strContainsChar "a=b" '=' = true)
    ∧ mkLocator ["a=b"] = .error .invalidLocator :=
  ⟨⟨by decide, by decide⟩,
    locator_validation.1 ["a=b"] "a=b" (by decide) (by decide)⟩

/-- C3: for a resource request with a partition set (and a job time, which
construction always provides), applying the request fails with the
walltime-exceeded error exactly when the job time exceeds the partition's
max walltime; within the limit it never fails on that ground. -/
theorem walltime_validation (f : SlurmFields) (p : Partition) (t : Int)
    (jobName : String) (hp : f.partition = some p) (ht : f.jobTime = some t) :
    (p.maxWalltime < t → applyToJob f jobName = .error .walltimeExceeded)
    ∧ (t ≤ p.maxWalltime → applyToJob f jobName ≠ .error .walltimeExceeded) := by
  constructor
  · intro hlt
    simp [applyToJob, hp, ht, hlt]
  · intro hle
    have hnlt : ¬ p.maxWalltime < t := not_lt.mpr hle
    simp only [applyToJob, hp, ht, if_neg hnlt]
    split
    · simp
    · simp

/-- Witness for C3: partition max walltime 120 and job time 200 fail. -/
theorem walltime_validation_witness :
    (120 : Int) < 200
    ∧ applyToJob
        (SlurmFields.mk (some (Partition.mk "scavenge" 120)) none none none
          (some 200) none none) "job" = .error .walltimeExceeded :=
  ⟨by decide,
    (walltime_validation _ (Partition.mk "scavenge" 120) 200 "job" rfl rfl).1
      (by decide)⟩

/-- If every element of a collection canonicalizes (at the given depth) to a
known list, the collection canonicalizes to their concatenation. -/
theorem canonList_forall2 {xs : List Dep} {ls : List (List DependencyNode)}
    {k : Nat} (h : List.Forall₂ (fun x l => canonRec x k = .ok l) xs ls) :
    canonList xs k = .ok ls.flatten := by
  induction h with
  | nil => rfl
  | @cons x l xs ls hx _ ih =>
    simp only [canonList, hx, ih, List.flatten_cons]

/-- C6 counterexample: a `depends_on` value of an unsupported, non-iterable
type (such as an integer) makes `_canonicalize_depends_on` fail with a
`TypeError` from the attempted iteration, not with the parse error the claim
names (`DependencySpecificationError`, the `RuntimeError` at `artifact.py`
line 70). -/
theorem canonicalize_unsupported_cex :
    canonicalizeDependsOn Dep.unsupported = .error .typeError
    ∧ canonicalizeDependsOn Dep.unsupported ≠ .error .dependencySpecification :=
  ⟨rfl, by decide⟩

/-- C6 amended: dependency canonicalization maps a single `DependencyNode` to
the singleton list containing it, maps an `Artifact` to its (deduplicated)
`depends_on` set, maps a collection within the allowed nesting depth
(`maxDepth = 2`) to the flattened, deduplicated union of the
canonicalizations of its elements, and fails with
`DependencySpecificationError` when nesting exceeds the allowed depth — but
an input of an unsupported, non-iterable type fails with a type error from
the attempted iteration, not with `DependencySpecificationError`. -/
theorem canonicalize_depends_on_amended :
    (∀ d : DependencyNode, canonicalizeDependsOn (.node d) = .ok [d])
    ∧ (∀ ds : List DependencyNode,
        canonicalizeDependsOn (.artifact ds) = .ok (insertionDedup ds))
    ∧ (∀ (xs : List Dep) (ls : List (List DependencyNode)),
        List.Forall₂ (fun x l => canonRec x 1 = .ok l) xs ls →
        canonicalizeDependsOn (.coll xs) = .ok (insertionDedup ls.flatten))
    ∧ (∀ xs : List Dep,
        canonicalizeDependsOn (.coll [.coll [.coll xs]])
          = .error .dependencySpecification)
    ∧ canonicalizeDependsOn .unsupported = .error .typeError := by
  refine ⟨fun d => ?_, fun ds => rfl, fun xs ls h => ?_, fun xs => ?_, rfl⟩
  · simp [canonicalizeDependsOn, canonRec, insertionDedup, Except.map]
  · simp only [canonicalizeDependsOn, canonRec, canonList_forall2 h, Except.map]
  · rfl

/-- Witness for C6 at a concrete two-element collection containing a node and
an artifact with a duplicate dependency. -/
theorem canonicalize_depends_on_amended_witness :
    List.Forall₂ (fun x l => canonRec x 1 = .ok l)
      [Dep.node ⟨1, [10]⟩, Dep.artifact [⟨2, [20]⟩, ⟨1, [10]⟩]]
      [[⟨1, [10]⟩], [⟨2, [20]⟩, ⟨1, [10]⟩]]
    ∧ canonicalizeDependsOn
        (.coll [Dep.node ⟨1, [10]⟩, Dep.artifact [⟨2, [20]⟩, ⟨1, [10]⟩]])
      = .ok (insertionDedup
          ([[(⟨1, [10]⟩ : DependencyNode)], [⟨2, [20]⟩, ⟨1, [10]⟩]].flatten)) := by
  have hf : List.Forall₂ (fun x l => canonRec x 1 = .ok l)
      [Dep.node ⟨1, [10]⟩, Dep.artifact [⟨2, [20]⟩, ⟨1, [10]⟩]]
      [[⟨1, [10]⟩], [⟨2, [20]⟩, ⟨1, [10]⟩]] :=
    List.Forall₂.cons rfl (List.Forall₂.cons rfl List.Forall₂.nil)
  exact ⟨hf, canonicalize_depends_on_amended.2.2.1 _ _ hf⟩

/-- C7 counterexample: unifying a Slurm request with a structurally
incompatible (non-Slurm) override does not fail with the
incompatible-request error the claim names; the merge succeeds, keeping the
base's partition and taking the override's set fields. -/
theorem unify_incompatible_cex :
    (SlurmFields.mk (some (Partition.mk "scavenge" 120)) none none none
        (some 120) none none).unify
      (.generic (SlurmFields.mk none (some "4G") none none none none none))
      = .ok (SlurmFields.mk (some (Partition.mk "scavenge" 120)) (some "4G")
          none none (some 120) none none)
    ∧ (SlurmFields.mk (some (Partition.mk "scavenge" 120)) none none none
        (some 120) none none).unify
      (.generic (SlurmFields.mk none (some "4G") none none none none none))
      ≠ .error .incompatibleResourceRequest := by
  exact ⟨by decide, by decide⟩

/-- C7 amended: `unify` with a structurally incompatible override variant
never fails with `IncompatibleResourceRequestError` (the source has no such
raise site); instead it ignores the override's partition — behaving exactly
as unifying with a Slurm request carrying the same fields but no partition —
and otherwise applies the same field-wise override. -/
theorem unify_incompatible_amended :
    (∀ base g : SlurmFields,
        base.unify (.generic g) = base.unify (.slurm { g with partition := none }))
    ∧ (∀ base g : SlurmFields,
        base.unify (.generic g) ≠ .error .incompatibleResourceRequest) := by
  constructor
  · intro base g
    rfl
  · intro base g h
    rw [SlurmFields.unify] at h
    cases hp : base.partition with
    | none => rw [hp] at h; exact PyErr.noConfusion (Except.error.inj h)
    | some p =>
      rw [hp] at h
      simp only [mkSlurmResourceRequest] at h
      split at h
      · exact PyErr.noConfusion (Except.error.inj h)
      · split at h
        · exact PyErr.noConfusion (Except.error.inj h)
        · split at h
          · exact PyErr.noConfusion (Except.error.inj h)
          · exact Except.noConfusion h

/-- Witness for C7 (amended) at a concrete Slurm base and a concrete
incompatible override carrying a memory request. -/
theorem unify_incompatible_amended_witness :
    (SlurmFields.mk (some (Partition.mk "scavenge" 120)) none none none
        (some 120) none none).unify
      (.generic (SlurmFields.mk none (some "4G") none none none none none))
    = (SlurmFields.mk (some (Partition.mk "scavenge" 120)) none none none
        (some 120) none none).unify
      (.slurm { SlurmFields.mk none (some "4G") none none none none none with
          partition := none }) :=
  unify_incompatible_amended.1
    (SlurmFields.mk (some (Partition.mk "scavenge" 120)) none none none
      (some 120) none none)
    (SlurmFields.mk none (some "4G") none none none none none)

/-- `pyOrOpt` is override-wins-if-set. -/
theorem pyOrOpt_eq_ite {α : Type} (a b : Option α) :
    pyOrOpt a b = if a.isSome then a else b := by
  cases a <;> rfl

/-- `pyOrInt` is override-wins-if-set as long as the override is not the
falsy set value `0`. -/
theorem pyOrInt_eq_ite {a b : Option Int} (h : a ≠ some 0) :
    pyOrInt a b = if a.isSome then a else b := by
  cases a with
  | none => rfl
  | some n =>
    have : ¬ n = 0 := fun h0 => h (by rw [h0])
    simp [pyOrInt, this]

/-- `pyOrStr` is override-wins-if-set as long as the override is not the
falsy set value `""`. -/
theorem pyOrStr_eq_ite {a b : Option String} (h : a ≠ some "") :
    pyOrStr a b = if a.isSome then a else b := by
  cases a with
  | none => rfl
  | some s =>
    have : ¬ s = "" := fun h0 => h (by rw [h0])
    simp [pyOrStr, this]

/-- The `num_gpus` merge (`if ... is not None`) is override-wins-if-set. -/
theorem gpuMerge_eq_ite (a b : Option Int) :
    (match a with
     | some g => some g
     | none => b) = if a.isSome then a else b := by
  cases a <;> rfl

/-- The cpu validator passes on values that are at least 1 when set. -/
theorem cpuInvalid_false {x : Option Int} (h : ∀ c, x = some c → 1 ≤ c) :
    cpuInvalid x = false := by
  cases x with
  | none => rfl
  | some c =>
    simp only [cpuInvalid, decide_eq_false_iff_not, not_lt]
    exact h c rfl

/-- The gpu validator passes on values that are at least 0 when set. -/
theorem gpuInvalid_false {x : Option Int} (h : ∀ g, x = some g → 0 ≤ g) :
    gpuInvalid x = false := by
  cases x with
  | none => rfl
  | some g =>
    simp only [gpuInvalid, decide_eq_false_iff_not, not_lt]
    exact h g rfl

/-- The single-node-pin validator passes on comma-free values. -/
theorem nodePinInvalid_false {x : Option String}
    (h : ∀ s, x = some s → strContainsChar s ',' = false) :
    nodePinInvalid x = false := by
  cases x with
  | none => rfl
  | some s => simp [nodePinInvalid, h s rfl]

/-- A non-`None`, non-zero optional int is truthy. -/
theorem intFalsy_false {x : Option Int} (h1 : x ≠ none) (h2 : x ≠ some 0) :
    intFalsy x = false := by
  cases x with
  | none => exact absurd rfl h1
  | some n =>
    have : ¬ n = 0 := fun h0 => h2 (by rw [h0])
    simp [intFalsy, this]

/-- C2 counterexample: an override that sets no fields is not a right
identity for `unify`.  The base constructed with only partition "scavenge"
gets job time 120 (the partition's max walltime) from
`__attrs_post_init__`; a default-constructed override gets job time 1440;
unifying hands the override's 1440 through (`other.job_time_in_minutes or
self...`), so the result differs from the base. -/
theorem unify_right_identity_cex :
    mkSlurmResourceRequest (some "scavenge") none none none none none none
      = .ok (SlurmFields.mk (some (Partition.mk "scavenge" 120)) none none none
          (some 120) none none)
    ∧ mkSlurmResourceRequest none none none none none none none
      = .ok (SlurmFields.mk none none none none (some 1440) none none)
    ∧ (SlurmFields.mk (some (Partition.mk "scavenge" 120)) none none none
        (some 120) none none).unify
        (.slurm (SlurmFields.mk none none none none (some 1440) none none))
      = .ok (SlurmFields.mk (some (Partition.mk "scavenge" 120)) none none none
          (some 1440) none none)
    ∧ SlurmFields.mk (some (Partition.mk "scavenge" 120)) none none none
        (some 1440) none none
      ≠ SlurmFields.mk (some (Partition.mk "scavenge" 120)) none none none
          (some 120) none none := by
  refine ⟨by decide, by decide, by decide, by decide⟩

/-- C2 amended: `unify(base, override)` is the field-wise
override-wins-if-set merge on all seven fields, where a field counts as set
when it holds a value the code treats as present (non-`None`, and for the
int/string fields also non-zero/non-empty), provided a partition is set on
one of the two sides (the merge re-runs the constructor, which dereferences
the merged partition) and the merged fields pass the constructor's
validators.  The `{cpu:1, mem:2G}` overridden by `{cpu:4}` example holds in
the presence of a base partition.  However `unify(base, override)` with a
default-constructed override that sets no fields is *not* the base
unchanged: construction defaults the override's job time to 1440, which then
overrides the base's job time, so the result is the base with its job time
replaced by 1440. -/
theorem unify_fieldwise_amended :
    (∀ (b o : SlurmFields) (p : Partition),
      pyOrOpt o.partition b.partition = some p →
      Partition.fromStr p.name = p →
      p.name ≠ "" →
      (∀ c, pyOrInt o.numCpus b.numCpus = some c → 1 ≤ c) →
      (∀ g, (match o.numGpus with
             | some g' => some g'
             | none => b.numGpus) = some g → 0 ≤ g) →
      (∀ s, pyOrStr o.runOnSingleNode b.runOnSingleNode = some s →
          strContainsChar s ',' = false) →
      pyOrInt o.jobTime b.jobTime ≠ none →
      pyOrInt o.jobTime b.jobTime ≠ some 0 →
      o.numCpus ≠ some 0 →
      o.jobTime ≠ some 0 →
      o.excludeList ≠ some "" →
      o.runOnSingleNode ≠ some "" →
      b.unify (.slurm o) = .ok
        { partition := if o.partition.isSome then o.partition else b.partition
          memory := if o.memory.isSome then o.memory else b.memory
          numCpus := if o.numCpus.isSome then o.numCpus else b.numCpus
          numGpus := if o.numGpus.isSome then o.numGpus else b.numGpus
          jobTime := if o.jobTime.isSome then o.jobTime else b.jobTime
          excludeList :=
            if o.excludeList.isSome then o.excludeList else b.excludeList
          runOnSingleNode :=
            if o.runOnSingleNode.isSome then o.runOnSingleNode
            else b.runOnSingleNode })
    ∧ ((SlurmFields.mk (some (Partition.mk "gaia" 1440)) (some "2G") (some 1)
          none (some 1440) none none).unify
        (.slurm (SlurmFields.mk none none (some 4) none (some 1440) none none))
      = .ok (SlurmFields.mk (some (Partition.mk "gaia" 1440)) (some "2G")
          (some 4) none (some 1440) none none))
    ∧ (∀ (ps : String) (ms : Option String) (cs gs jt : Option Int)
          (ex rn : Option String) (bF : SlurmFields),
        ps ≠ "" →
        mkSlurmResourceRequest (some ps) ms cs gs jt ex rn = .ok bF →
        bF.unify (.slurm (SlurmFields.mk none none none none (some 1440)
            none none))
          = .ok { bF with jobTime := some 1440 }) := by
  refine ⟨?_, by decide, ?_⟩
  · intro b o p hpart hfrom hname hcpu hgpu hnode hjt1 hjt2 hocpu hojt hoex hono
    have hcpuF : cpuInvalid (pyOrInt o.numCpus b.numCpus) = false :=
      cpuInvalid_false hcpu
    have hgpuF : gpuInvalid (match o.numGpus with
        | some g' => some g'
        | none => b.numGpus) = false := gpuInvalid_false hgpu
    have hnodeF : nodePinInvalid (pyOrStr o.runOnSingleNode b.runOnSingleNode)
        = false := nodePinInvalid_false hnode
    have hjtF : intFalsy (pyOrInt o.jobTime b.jobTime) = false :=
      intFalsy_false hjt1 hjt2
    have hpp : partitionOfParam (some p.name) = some p := by
      simp [partitionOfParam, hname, hfrom]
    simp only [SlurmFields.unify, ResourceRequest.fields, hpart,
      mkSlurmResourceRequest, hcpuF, hgpuF, hnodeF, hjtF, Bool.false_eq_true,
      if_false, hpp]
    rw [← hpart]
    simp only [pyOrOpt_eq_ite, pyOrInt_eq_ite hojt, pyOrStr_eq_ite hoex,
      pyOrStr_eq_ite hono, gpuMerge_eq_ite, pyOrInt_eq_ite hocpu]
  · intro ps ms cs gs jt ex rn bF hps h
    simp only [mkSlurmResourceRequest] at h
    split at h
    · exact Except.noConfusion h
    · split at h
      · exact Except.noConfusion h
      · split at h
        · exact Except.noConfusion h
        · next hcpuF hgpuF hnodeF =>
          obtain rfl := (Except.ok.inj h).symm
          rw [Bool.not_eq_true] at hcpuF hgpuF hnodeF
          have hpp : partitionOfParam (some ps)
              = some (Partition.fromStr ps) := by
            simp [partitionOfParam, hps]
          have hname : (Partition.fromStr ps).name = ps := rfl
          simp [SlurmFields.unify, ResourceRequest.fields, pyOrOpt, pyOrInt,
            pyOrStr, hpp, mkSlurmResourceRequest, hcpuF, hgpuF, hnodeF,
            intFalsy, hname]

/-- Witness for C2 (amended) at a concrete base `{partition: gaia, cpu: 1,
mem: "2G"}` and override `{cpu: 4}` (constructed values, so both carry a job
time): the merge keeps the override's cpu count and the base's memory. -/
theorem unify_fieldwise_amended_witness :
    (SlurmFields.mk (some (Partition.mk "gaia" 1440)) (some "2G") (some 1)
        none (some 1440) none none).unify
      (.slurm (SlurmFields.mk none none (some 4) none (some 1440) none none))
    = .ok (SlurmFields.mk (some (Partition.mk "gaia" 1440)) (some "2G")
        (some 4) none (some 1440) none none) := by
  have h := unify_fieldwise_amended.1
    (SlurmFields.mk (some (Partition.mk "gaia" 1440)) (some "2G") (some 1)
      none (some 1440) none none)
    (SlurmFields.mk none none (some 4) none (some 1440) none none)
    (Partition.mk "gaia" 1440)
    (by decide) (by decide) (by decide)
    (fun c hc => by
      simp only [pyOrInt] at hc
      norm_num at hc
      omega)
    (fun g hg => Option.noConfusion hg)
    (fun s hs => Option.noConfusion hs)
    (by decide) (by decide) (by decide) (by decide) (by decide) (by decide)
  simpa using h

/-- Looking up the key just upserted finds the new value. -/
theorem alookup_upsert_self {κ α : Type} [DecidableEq κ]
    (l : List (κ × α)) (k : κ) (v : α) : alookup (upsert l k v) k = some v := by
  induction l with
  | nil => simp [upsert, alookup]
  | cons p rest ih =>
    obtain ⟨k', v'⟩ := p
    by_cases hk : k' = k
    · simp [upsert, hk, alookup]
    · simp only [upsert, if_neg hk, alookup, if_neg hk]
      exact ih

/-- Upserting a different key does not change a lookup. -/
theorem alookup_upsert_other {κ α : Type} [DecidableEq κ]
    (l : List (κ × α)) (k' k : κ) (v : α) (h : k' ≠ k) :
    alookup (upsert l k' v) k = alookup l k := by
  induction l with
  | nil => simp [upsert, alookup, if_neg h]
  | cons p rest ih =>
    obtain ⟨k0, v0⟩ := p
    by_cases hk0 : k0 = k'
    · subst hk0
      simp only [upsert, if_pos rfl, alookup, if_neg h]
    · simp only [upsert, if_neg hk0, alookup]
      by_cases hk : k0 = k
      · simp [if_pos hk]
      · simp only [if_neg hk]
        exact ih

/-- The key written for a category by `_conf_limits`. -/
def categoryKey (c : String) : String := "dagman." ++ c ++ ".maxjobs"

/-- The fold `_conf_limits` performs over the recorded category limits. -/
def confFold (entries : List (String × Nat))
    (props : List (String × String)) : List (String × String) :=
  entries.foldl (fun pr p => upsert pr (categoryKey p.1) (toString p.2)) props

/-- Folding entries none of whose keys is `key` leaves a lookup at `key`
unchanged. -/
theorem confFold_lookup_not_mem (entries : List (String × Nat))
    (props : List (String × String)) (key : String)
    (h : key ∉ entries.map (fun p => categoryKey p.1)) :
    alookup (confFold entries props) key = alookup props key := by
  induction entries generalizing props with
  | nil => rfl
  | cons p rest ih =>
    obtain ⟨c0, n0⟩ := p
    simp only [List.map_cons, List.mem_cons, not_or] at h
    obtain ⟨h1, h2⟩ := h
    simp only [confFold, List.foldl_cons]
    rw [show List.foldl (fun pr p => upsert pr (categoryKey p.1) (toString p.2))
        (upsert props (categoryKey c0) (toString n0)) rest
      = confFold rest (upsert props (categoryKey c0) (toString n0)) from rfl]
    rw [ih _ h2]
    exact alookup_upsert_other _ _ _ _ (fun hc => h1 hc.symm)

/-- If a category is recorded with limit `n` and the emitted keys of the
recorded entries are distinct, the fold writes `toString n` under that
category's key. -/
theorem confFold_lookup (entries : List (String × Nat))
    (props : List (String × String)) (c : String) (n : Nat)
    (hrec : alookup entries c = some n)
    (hnd : (entries.map (fun p => categoryKey p.1)).Nodup) :
    alookup (confFold entries props) (categoryKey c) = some (toString n) := by
  induction entries generalizing props with
  | nil => exact Option.noConfusion hrec
  | cons p rest ih =>
    obtain ⟨c0, n0⟩ := p
    simp only [List.map_cons, List.nodup_cons] at hnd
    obtain ⟨hnotin, hndrest⟩ := hnd
    by_cases hc : c0 = c
    · subst hc
      rw [alookup, if_pos rfl] at hrec
      obtain rfl := Option.some.inj hrec
      simp only [confFold, List.foldl_cons]
      rw [show List.foldl
          (fun pr p => upsert pr (categoryKey p.1) (toString p.2))
          (upsert props (categoryKey c0) (toString n0)) rest
        = confFold rest (upsert props (categoryKey c0) (toString n0)) from rfl]
      rw [confFold_lookup_not_mem _ _ _ hnotin]
      exact alookup_upsert_self _ _ _
    · rw [alookup, if_neg hc] at hrec
      simp only [confFold, List.foldl_cons]
      exact ih (upsert props (categoryKey c0) (toString n0)) hrec hndrest

/-- C9: a category limited via `limit_jobs_for_category` is emitted at
finalize time as the configuration entry `dagman.<category>.maxjobs` with
value equal to the recorded limit (provided the recorded categories emit
distinct keys, which holds for any state built through
`limit_jobs_for_category` since it upserts); and `limit_jobs_for_category`
itself leaves the job graph's nodes and edges (and the jobs' wiring)
unchanged. -/
theorem limit_category_configuration (st : BuilderState) (c : String) (n : Nat)
    (hrec : alookup st.categoryToMaxJobs c = some n)
    (hnd : (st.categoryToMaxJobs.map (fun p => categoryKey p.1)).Nodup) :
    alookup (confLimits st).properties ("dagman." ++ c ++ ".maxjobs")
      = some (toString n)
    ∧ ∀ (st' : BuilderState) (c' : String) (m : Nat),
        (limitJobsForCategory st' c' m).jobGraphJobs = st'.jobGraphJobs
        ∧ (limitJobsForCategory st' c' m).jobGraphDeps = st'.jobGraphDeps
        ∧ (limitJobsForCategory st' c' m).jobInputs = st'.jobInputs
        ∧ (limitJobsForCategory st' c' m).jobOutputs = st'.jobOutputs := by
  constructor
  · exact confFold_lookup st.categoryToMaxJobs st.properties c n hrec hnd
  · intro st' c' m
    exact ⟨rfl, rfl, rfl, rfl⟩

/-- Witness for C9 at a concrete state with one recorded category limit. -/
theorem limit_category_configuration_witness :
    alookup (confLimits (limitJobsForCategory
        (BuilderState.mk 0 0 [] [] [] [] [] [] [] [] [] [] [] [] [] [])
        "gpu" 5)).properties ("dagman." ++ "gpu" ++ ".maxjobs")
      = some (toString 5) :=
  (limit_category_configuration
    (limitJobsForCategory
      (BuilderState.mk 0 0 [] [] [] [] [] [] [] [] [] [] [] [] [] [])
      "gpu" 5) "gpu" 5 (by decide) (by decide)).1

/-- Appending a fresh key to an association list makes it found. -/
theorem alookup_append_fresh {κ α : Type} [DecidableEq κ]
    (l : List (κ × α)) (k : κ) (v : α) (h : alookup l k = none) :
    alookup (l ++ [(k, v)]) k = some v := by
  induction l with
  | nil => simp [alookup]
  | cons p rest ih =>
    obtain ⟨k0, v0⟩ := p
    rw [alookup] at h
    by_cases hk : k0 = k
    · rw [if_pos hk] at h
      exact Option.noConfusion h
    · rw [if_neg hk] at h
      simp only [List.cons_append, alookup, if_neg hk]
      exact ih h

/-- The `depends_on` loop of `_update_job_settings` only adds edges and
inputs; every other state component is untouched. -/
theorem depsFold_preserves (jobId : Nat) (l : List DependencyNode)
    (s : BuilderState) :
    (l.foldl (depsFoldStep jobId) s).jobGraphJobs = s.jobGraphJobs
    ∧ (l.foldl (depsFoldStep jobId) s).signatureToJob = s.signatureToJob
    ∧ (l.foldl (depsFoldStep jobId) s).lfnToFile = s.lfnToFile
    ∧ (l.foldl (depsFoldStep jobId) s).replicaCatalog = s.replicaCatalog
    ∧ (l.foldl (depsFoldStep jobId) s).nextFileId = s.nextFileId
    ∧ (l.foldl (depsFoldStep jobId) s).scriptsWritten = s.scriptsWritten
    ∧ (l.foldl (depsFoldStep jobId) s).jobOutputs = s.jobOutputs := by
  induction l generalizing s with
  | nil => exact ⟨rfl, rfl, rfl, rfl, rfl, rfl, rfl⟩
  | cons p rest ih => exact ih (depsFoldStep jobId s p)

/-- `create_file` leaves the job graph, signature cache, scripts, outputs and
edges untouched. -/
theorem createFile_preserves (env : Env) (st : BuilderState)
    (lfn pfn : String) (site : Option String) (add : Bool) :
    (createFile env st lfn pfn site add).2.jobGraphJobs = st.jobGraphJobs
    ∧ (createFile env st lfn pfn site add).2.signatureToJob = st.signatureToJob
    ∧ (createFile env st lfn pfn site add).2.scriptsWritten = st.scriptsWritten
    ∧ (createFile env st lfn pfn site add).2.jobOutputs = st.jobOutputs
    ∧ (createFile env st lfn pfn site add).2.jobGraphDeps = st.jobGraphDeps := by
  rw [createFile]
  cases alookup st.lfnToFile lfn with
  | some f => exact ⟨rfl, rfl, rfl, rfl, rfl⟩
  | none => exact ⟨rfl, rfl, rfl, rfl, rfl⟩

/-- On a logical file name not yet tracked, `create_file` allocates the next
file id, records it, and adds a replica catalog entry exactly when
`add_to_catalog` holds. -/
theorem createFile_fresh (env : Env) (st : BuilderState) (lfn pfn : String)
    (site : Option String) (add : Bool) (h : alookup st.lfnToFile lfn = none) :
    createFile env st lfn pfn site add
      = (st.nextFileId,
        { st with
          nextFileId := st.nextFileId + 1
          lfnToFile := st.lfnToFile ++ [(lfn, st.nextFileId)]
          replicaCatalog :=
            if add then
              st.replicaCatalog ++ [(site.getD env.defaultSite, lfn, pfn)]
            else st.replicaCatalog }) := by
  rw [createFile, h]

/-- Inversion of a successful `_update_job_settings`: the returned node is
the given job, one node was appended to the graph, the signature cache and
scripts are untouched, and — when the checkpoint's logical name is fresh —
the checkpoint file is allocated, always added to the job's outputs, and
entered in the replica catalog exactly when the checkpoint path exists on
disk. -/
theorem updateJobSettings_ok (env : Env) (st : BuilderState)
    (category : Option String) (checkpointPath ckptName : String)
    (dependsOn : List DependencyNode) (jobId : Nat) (jobName : Locator)
    (profs : List PegasusProfile) (rr : SlurmFields) (retry : Nat)
    (node : DependencyNode) (st' : BuilderState)
    (h : updateJobSettings env st category checkpointPath ckptName dependsOn
        jobId jobName profs rr retry = .ok (node, st')) :
    node.job = jobId
    ∧ st'.jobGraphJobs = st.jobGraphJobs ++ [jobId]
    ∧ st'.signatureToJob = st.signatureToJob
    ∧ st'.scriptsWritten = st.scriptsWritten
    ∧ (alookup st.lfnToFile ckptName = none →
        node.outputFiles = [st.nextFileId]
        ∧ (jobId, st.nextFileId) ∈ st'.jobOutputs
        ∧ alookup st'.lfnToFile ckptName = some st.nextFileId
        ∧ st'.replicaCatalog = (if env.fsExists checkpointPath then
            st.replicaCatalog ++ [(env.defaultSite, ckptName, checkpointPath)]
          else st.replicaCatalog)) := by
  rw [updateJobSettings] at h
  cases happly : applyToJob rr (jobNameFor env jobName) with
  | error e =>
    rw [happly] at h
    exact Except.noConfusion h
  | ok glite =>
    rw [happly] at h
    replace h := Except.ok.inj h
    obtain rfl : node = _ := (congrArg Prod.fst h).symm
    obtain rfl : st' = _ := (congrArg Prod.snd h).symm
    refine ⟨rfl, ?_, ?_, ?_, ?_⟩
    · exact (createFile_preserves env _ ckptName checkpointPath none _).1.trans
        (depsFold_preserves jobId dependsOn _).1
    · exact (createFile_preserves env _ ckptName checkpointPath none _).2.1.trans
        (depsFold_preserves jobId dependsOn _).2.1
    · exact (createFile_preserves env _ ckptName checkpointPath none _).2.2.1.trans
        (depsFold_preserves jobId dependsOn _).2.2.2.2.2.1
    · intro hlfn
      have hfold := depsFold_preserves jobId dependsOn
        { st with
          jobGraphJobs := st.jobGraphJobs ++ [jobId]
          jobGlite := st.jobGlite ++ [(jobId, glite)]
          jobDagman := st.jobDagman ++ [(jobId, category, retry)]
          jobProfiles := st.jobProfiles
            ++ profs.map (fun p => (jobId, p.namespaceName, p.key, p.value)) }
      have hlfnC : alookup (dependsOn.foldl (depsFoldStep jobId)
          { st with
            jobGraphJobs := st.jobGraphJobs ++ [jobId]
            jobGlite := st.jobGlite ++ [(jobId, glite)]
            jobDagman := st.jobDagman ++ [(jobId, category, retry)]
            jobProfiles := st.jobProfiles
              ++ profs.map (fun p =>
                  (jobId, p.namespaceName, p.key, p.value)) }).lfnToFile
          ckptName = none := by
        rw [hfold.2.2.1]
        exact hlfn
      rw [createFile_fresh env _ ckptName checkpointPath none _ hlfnC]
      refine ⟨?_, ?_, ?_, ?_⟩
      · rw [hfold.2.2.2.2.1]
      · rw [hfold.2.2.2.2.1]
        exact List.mem_append_right _ (by
          rw [hfold.2.2.2.2.2.2]
          exact List.mem_singleton.mpr rfl)
      · rw [hfold.2.2.2.2.1]
        refine alookup_append_fresh _ _ _ ?_
        rw [hfold.2.2.1]
        exact hlfn
      · rw [hfold.2.2.2.1, hfold.2.2.2.2.1]
        rfl

/-- Inversion of a successful `_run_python_job` on a fresh signature: the
returned node is recorded in the signature cache, exactly one node was added
to the job graph, and — when the checkpoint's logical name is fresh — the
checkpoint artifact at `<workdir>/___ckpt` is in the job's outputs and enters
the replica catalog exactly when it already exists on disk. -/
theorem runPythonJob_fresh (env : Env) (st : BuilderState) (jobName : Locator)
    (module payload : String) (dep : Dep) (rr : Option SlurmFields)
    (cat : Option String) (profs : List PegasusProfile) (retry : Nat)
    (node : DependencyNode) (st' : BuilderState)
    (hfresh : alookup st.signatureToJob (module, payload) = none)
    (h : runPythonJob env st jobName module payload dep rr cat profs retry
        = .ok (node, st')) :
    alookup st'.signatureToJob (module, payload) = some node
    ∧ st'.jobGraphJobs.length = st.jobGraphJobs.length + 1
    ∧ (alookup st.lfnToFile (locatorStr jobName ++ "/___ckpt") = none →
        node.outputFiles = [st.nextFileId]
        ∧ (node.job, st.nextFileId) ∈ st'.jobOutputs
        ∧ alookup st'.lfnToFile (locatorStr jobName ++ "/___ckpt")
            = some st.nextFileId
        ∧ st'.replicaCatalog =
            (if env.fsExists (directoryFor env jobName ++ "/___ckpt") then
              st.replicaCatalog
                ++ [(env.defaultSite, locatorStr jobName ++ "/___ckpt",
                    directoryFor env jobName ++ "/___ckpt")]
            else st.replicaCatalog)) := by
  simp only [runPythonJob, hfresh] at h
  cases hcanon : canonicalizeDependsOn dep with
  | error e =>
    simp only [hcanon] at h
    exact Except.noConfusion h
  | ok ds =>
    simp only [hcanon] at h
    cases hrr : setResourceRequest env rr with
    | error e =>
      simp only [hrr] at h
      exact Except.noConfusion h
    | ok rrR =>
      simp only [hrr] at h
      cases hupd : updateJobSettings env
          { st with
            scriptsWritten :=
              st.scriptsWritten ++ [directoryFor env jobName ++ "/___run.sh"]
            transformations := st.transformations ++ [jobNameFor env jobName]
            nextJobId := st.nextJobId + 1 }
          cat (directoryFor env jobName ++ "/___ckpt")
          (locatorStr jobName ++ "/___ckpt") ds st.nextJobId jobName profs rrR
          retry with
      | error e =>
        simp only [hupd] at h
        exact Except.noConfusion h
      | ok pair =>
        obtain ⟨node0, st0⟩ := pair
        obtain ⟨hjob, hjobs, hsig, hscripts, hckpt⟩ :=
          updateJobSettings_ok _ _ _ _ _ _ _ _ _ _ _ _ _ hupd
        simp only [hupd] at h
        replace h := Except.ok.inj h
        obtain rfl : node = node0 := (congrArg Prod.fst h).symm
        obtain rfl : st' = _ := (congrArg Prod.snd h).symm
        refine ⟨?_, ?_, ?_⟩
        · show alookup (st0.signatureToJob ++ [((module, payload), node)])
            (module, payload) = some node
          refine alookup_append_fresh _ _ _ ?_
          rw [hsig]
          exact hfresh
        · show st0.jobGraphJobs.length = st.jobGraphJobs.length + 1
          rw [hjobs]
          simp
        · intro hlfn
          obtain ⟨ho1, ho2, ho3, ho4⟩ := hckpt hlfn
          refine ⟨ho1, ?_, ho3, ho4⟩
          show (node.job, st.nextFileId) ∈ st0.jobOutputs
          rw [hjob]
          exact ho2

/-- C1: within one graph-construction session, two `_run_python_job` calls
with equal program identity and equal canonical argument payload (a fresh
signature at the first call) return the identical `DependencyNode`; the node
count rises by exactly one across the two calls; and the second, cache-hit
call returns with the state — scripts, graph, catalogs — entirely unchanged
(it writes no script and adds no node).  The job locators, depends-on,
resource requests, categories, profiles and retry counts of the two calls
may even differ: only the signature is consulted. -/
theorem idempotent_scheduling (env : Env) (st : BuilderState)
    (jobName1 jobName2 : Locator) (module payload : String) (dep1 dep2 : Dep)
    (rr1 rr2 : Option SlurmFields) (cat1 cat2 : Option String)
    (profs1 profs2 : List PegasusProfile) (retry1 retry2 : Nat)
    (node : DependencyNode) (st' : BuilderState)
    (hfresh : alookup st.signatureToJob (module, payload) = none)
    (h1 : runPythonJob env st jobName1 module payload dep1 rr1 cat1 profs1
        retry1 = .ok (node, st'))
    (h2 : ∃ ds, canonicalizeDependsOn dep2 = .ok ds) :
    runPythonJob env st' jobName2 module payload dep2 rr2 cat2 profs2 retry2
      = .ok (node, st')
    ∧ st'.jobGraphJobs.length = st.jobGraphJobs.length + 1 := by
  obtain ⟨hsig, hlen, _⟩ :=
    runPythonJob_fresh env st jobName1 module payload dep1 rr1 cat1 profs1
      retry1 node st' hfresh h1
  obtain ⟨ds, hds⟩ := h2
  refine ⟨?_, hlen⟩
  simp only [runPythonJob, hds, hsig]

/-- C5: for every job scheduled through `_run_python_job` at a locator with
working directory `D` (fresh signature, checkpoint logical name not yet
tracked), the checkpoint artifact at `D/___ckpt` is the job's declared
output, and it is entered in the replica catalog if and only if the
checkpoint file already exists on disk at schedule time. -/
theorem checkpoint_replica_registration (env : Env) (st : BuilderState)
    (jobName : Locator) (module payload : String) (dep : Dep)
    (rr : Option SlurmFields) (cat : Option String)
    (profs : List PegasusProfile) (retry : Nat)
    (node : DependencyNode) (st' : BuilderState)
    (hfresh : alookup st.signatureToJob (module, payload) = none)
    (hlfn : alookup st.lfnToFile (locatorStr jobName ++ "/___ckpt") = none)
    (h : runPythonJob env st jobName module payload dep rr cat profs retry
        = .ok (node, st')) :
    node.outputFiles = [st.nextFileId]
    ∧ (node.job, st.nextFileId) ∈ st'.jobOutputs
    ∧ alookup st'.lfnToFile (locatorStr jobName ++ "/___ckpt")
        = some st.nextFileId
    ∧ st'.replicaCatalog =
        (if env.fsExists (directoryFor env jobName ++ "/___ckpt") then
          st.replicaCatalog
            ++ [(env.defaultSite, locatorStr jobName ++ "/___ckpt",
                directoryFor env jobName ++ "/___ckpt")]
        else st.replicaCatalog) :=
  (runPythonJob_fresh env st jobName module payload dep rr cat profs retry
    node st' hfresh h).2.2 hlfn

/-- A concrete builder configuration for witnesses: every path exists on the
modelled disk. -/
def envC : Env :=
  { workflowDirectory := "/wd", defaultSite := "saga", namespaceName := "ns",
    experimentName := "",
    defaultResourceRequest := SlurmFields.mk
      (some (Partition.mk "scavenge" 120)) none none none (some 100) none none,
    fsExists := fun _ => true }

/-- The empty initial builder state for witnesses. -/
def st0C : BuilderState :=
  BuilderState.mk 0 0 [] [] [] [] [] [] [] [] [] [] [] [] [] []

/-- The state after scheduling one python job in `envC` from `st0C`. -/
def st1C : BuilderState :=
  { nextJobId := 1, nextFileId := 1, jobGraphJobs := [0], jobGraphDeps := [],
    jobInputs := [], jobOutputs := [(0, 0)],
    signatureToJob := [(("mod", "args"), DependencyNode.mk 0 [0])],
    lfnToFile := [("jobs/j1/___ckpt", 0)],
    replicaCatalog := [("saga", "jobs/j1/___ckpt", "/wd/jobs/j1/___ckpt")],
    scriptsWritten := ["/wd/jobs/j1/___run.sh"],
    transformations := ["jobs_j1"],
    jobGlite := [(0, "--qos scavenge --partition scavenge --ntasks 1\n --cpus-per-task 1 --gpus-per-task 0 --job-name jobs_j1 --mem 2G\n --time 1:40:00")],
    jobDagman := [(0, none, 0)], jobProfiles := [], categoryToMaxJobs := [],
    properties := [] }

/-- Witness for C1: a concrete first call schedules the job, and the repeated
call with the same module and payload returns the identical node and leaves
the state untouched, the graph having grown by exactly one node. -/
theorem idempotent_scheduling_witness :
    runPythonJob envC st1C ["jobs", "j1"] "mod" "args" (Dep.coll []) none none
        [] 0 = .ok (DependencyNode.mk 0 [0], st1C)
    ∧ st1C.jobGraphJobs.length = st0C.jobGraphJobs.length + 1 :=
  idempotent_scheduling envC st0C ["jobs", "j1"] ["jobs", "j1"] "mod" "args"
    (Dep.coll []) (Dep.coll []) none none none none [] [] 0 0
    (DependencyNode.mk 0 [0]) st1C rfl (by decide) ⟨[], rfl⟩

/-- Witness for C5: in the concrete run the checkpoint artifact
`jobs/j1/___ckpt` is the scheduled job's output and, because the checkpoint
path exists on the modelled disk, it is registered in the replica catalog. -/
theorem checkpoint_replica_registration_witness :
    (DependencyNode.mk 0 [0]).outputFiles = [st0C.nextFileId]
    ∧ ((DependencyNode.mk 0 [0]).job, st0C.nextFileId) ∈ st1C.jobOutputs
    ∧ alookup st1C.lfnToFile (locatorStr ["jobs", "j1"] ++ "/___ckpt")
        = some st0C.nextFileId
    ∧ st1C.replicaCatalog =
        (if envC.fsExists (directoryFor envC ["jobs", "j1"] ++ "/___ckpt") then
          st0C.replicaCatalog
            ++ [(envC.defaultSite, locatorStr ["jobs", "j1"] ++ "/___ckpt",
                directoryFor envC ["jobs", "j1"] ++ "/___ckpt")]
        else st0C.replicaCatalog) :=
  checkpoint_replica_registration envC st0C ["jobs", "j1"] "mod" "args"
    (Dep.coll []) none none [] 0 (DependencyNode.mk 0 [0]) st1C rfl rfl
    (by decide)

end PegasusWrapper
